import Mathlib

/-!
Shallow embedding of the two parameter-sweep scripts of the
Bamboo-Investigations repository: `variable_channel_height.py` and
`variable_water.py`.

Numbers are modelled as exact rationals (`ℚ`); IEEE-754 rounding of the
Python floats is abstracted away, and `numpy.pi` is embedded as the exact
rational value of the double-precision constant.  The external libraries
(`bamboo`, `pypropep`, `thermo`) are not part of this repository, so their
entry points are abstracted as an explicit record of pure functions
(`ExtLib`); every piece of logic that the scripts themselves contain —
constants, construction sequence, parameter sweep, aggregation arrays and
the values handed to the plots — is translated from the source.  The
imperative `for i in range(...)` loops writing into preallocated
`np.zeros` arrays are embedded as folds over `List.range` updating lists
with `List.set`; a ghost field `analysis_calls` records each invocation of
the steady heating analysis together with its `number_of_points` argument.
`np.amax` raises on an empty array; its embedding `amax` returns `0` there.
Indexing `data["p_coolant"][0]` / `[-1]` is embedded with `headD` /
`getLastD` with default `0`.
-/

namespace BambooInvestigations

/-- Exact rational value of the IEEE-754 double `numpy.pi`. -/
def np_pi : ℚ := 884279719003555 / 281474976710656

/-- `np.linspace a b n`: `n` evenly spaced samples from `a` to `b` inclusive. -/
def linspace (a b : ℚ) (n : ℕ) : List ℚ :=
  (List.range n).map (fun i : ℕ => a + (i : ℚ) * ((b - a) / ((n : ℚ) - 1)))

/-- `np.amax`: maximum of the entries (`0` for the empty list, where numpy raises). -/
def amax : List ℚ → ℚ
  | [] => 0
  | x :: xs => xs.foldl max x

/-- `bamboo.materials` entries used by the scripts. -/
inductive Material where
  | CopperC700
  | Graphite
deriving DecidableEq

/-- The `properties` attribute of a solved pypropep equilibrium. -/
structure EquilProperties where
  Isex : ℚ
  Cp : ℚ
  T : ℚ
deriving DecidableEq

/-- A solved pypropep equilibrium: properties and product composition. -/
structure EquilibriumResult where
  properties : EquilProperties
  composition : String → ℚ

/-- The fraction keyword used to build a `thermo.mixture.Mixture`:
mass fractions `ws` or mole fractions `zs`. -/
inductive FracSpec where
  | ws (l : List ℚ)
  | zs (l : List ℚ)
deriving DecidableEq

/-- A `thermo.mixture.Mixture`, identified by its constructor arguments. -/
structure Mixture where
  names : List String
  fracs : FracSpec
deriving DecidableEq

/-- A `bamboo.cooling.TransportProperties` object. -/
structure TransportProperties where
  model : String
  thermo_object : Mixture
  force_phase : String
deriving DecidableEq

/-- A `bamboo.PerfectGas`. -/
structure PerfectGas where
  gamma : ℚ
  cp : ℚ
deriving DecidableEq

/-- A `bamboo.ChamberConditions`: chamber pressure, temperature, mass flow rate. -/
structure ChamberConditions where
  p0 : ℚ
  T0 : ℚ
  mdot : ℚ
deriving DecidableEq

/-- A `bamboo.Nozzle`; the scripts read only its throat area `At`. -/
structure Nozzle where
  At : ℚ
deriving DecidableEq

/-- Engine geometry attached by `add_geometry`. -/
structure Geometry where
  chamber_length : ℚ
  Ac : ℚ
  wall_thickness : ℚ
deriving DecidableEq

/-- Ablative configuration attached by `add_ablative`. -/
structure Ablative where
  ablative_material : Material
  wall_material : Material
  regression_rate : ℚ
  xs : List ℚ
  ablative_thickness : Option ℚ
deriving DecidableEq

/-- Cooling jacket attached by `add_cooling_jacket`. -/
structure CoolingJacket where
  inner_wall : Material
  inlet_T : ℚ
  inlet_p0 : ℚ
  coolant_transport : TransportProperties
  mdot_coolant : ℚ
  configuration : String
  channel_height : ℚ
deriving DecidableEq

/-- A `bamboo.Engine` together with the optional components the scripts attach. -/
structure Engine where
  perfect_gas : PerfectGas
  chamber_conditions : ChamberConditions
  nozzle : Nozzle
  geometry : Option Geometry
  exhaust_transport : Option TransportProperties
  ablative : Option Ablative
  cooling_jacket : Option CoolingJacket
deriving DecidableEq

/-- `Engine.add_geometry`: attaches the chamber geometry. -/
def Engine.add_geometry (e : Engine) (chamber_length Ac wall_thickness : ℚ) : Engine :=
  { e with geometry := some ⟨chamber_length, Ac, wall_thickness⟩ }

/-- `Engine.add_exhaust_transport`: attaches exhaust-gas transport properties. -/
def Engine.add_exhaust_transport (e : Engine) (t : TransportProperties) : Engine :=
  { e with exhaust_transport := some t }

/-- `Engine.add_ablative`: attaches the ablative configuration. -/
def Engine.add_ablative (e : Engine) (abl wall : Material) (regression_rate : ℚ)
    (xs : List ℚ) (thickness : Option ℚ) : Engine :=
  { e with ablative := some ⟨abl, wall, regression_rate, xs, thickness⟩ }

/-- `Engine.add_cooling_jacket`: attaches (or re-attaches) the cooling jacket. -/
def Engine.add_cooling_jacket (e : Engine) (wall : Material) (inlet_T inlet_p0 : ℚ)
    (ct : TransportProperties) (mdot_c : ℚ) (config : String) (channel_height : ℚ) : Engine :=
  { e with cooling_jacket := some ⟨wall, inlet_T, inlet_p0, ct, mdot_c, config, channel_height⟩ }

/-- The dictionary returned by `steady_heating_analysis` (the fields the scripts read). -/
structure CoolingData where
  T_wall_inner : List ℚ
  p_coolant : List ℚ
deriving DecidableEq

/-- The external libraries, abstracted as pure functions: a pypropep
equilibrium solve (propellant mass-fraction list and the pressure handed to
`set_state(P=..., type=HP)`), a pypropep `ShiftingPerformance` solve
(propellants, chamber pressure, exit pressure — its result is unused by the
scripts), `bamboo.Nozzle.from_engine_components`, the engine method
`steady_heating_analysis` (engine, `number_of_points`, `to_json`), and the
engine method `isp` at an ambient pressure. -/
structure ExtLib where
  equil : List (String × ℚ) → ℚ → EquilibriumResult
  shifting : List (String × ℚ) → ℚ → ℚ → ℚ
  nozzle_from_engine_components : PerfectGas → ChamberConditions → ℚ → String → ℚ → Nozzle
  steady_heating_analysis : Engine → ℕ → Bool → CoolingData
  isp : Engine → ℚ → ℚ

/-- `ppp.PROPELLANTS` key for isopropyl alcohol. -/
def ipa : String := "ISOPROPYL ALCOHOL"

/-- `ppp.PROPELLANTS` key for water. -/
def water : String := "WATER"

/-- `ppp.PROPELLANTS` key for nitrous oxide. -/
def n2o : String := "NITROUS OXIDE"

/-- Total mass of the entries of a propellant list carrying a given name. -/
def massOf : List (String × ℚ) → String → ℚ
  | [], _ => 0
  | p :: t, name => (if p.1 = name then p.2 else 0) + massOf t name

namespace VariableChannelHeight

/-- Chamber cross-sectional area, `np.pi*0.1**2`. -/
def Ac : ℚ := np_pi * (1 / 10) ^ 2

/-- `L_star = Volume_c/Area_t`. -/
def L_star : ℚ := 3 / 2

/-- Wall thickness, `2e-3` m. -/
def wall_thickness : ℚ := 2 / 1000

/-- Chamber pressure, `15e5` Pa. -/
def pc : ℚ := 1500000

/-- Tank / inlet coolant stagnation pressure, `50e5` Pa. -/
def p_tank : ℚ := 5000000

/-- Mass flow rate, `5.4489` kg/s. -/
def mdot : ℚ := 54489 / 10000

/-- Ambient pressure, `1.01325e5` Pa. -/
def p_amb : ℚ := 101325

/-- Oxidiser/fuel mass ratio (source name `OF_ratio`), `3.5`. -/
def OF_rat : ℚ := 7 / 2

/-- Fraction of the fuel that is water, by mass: `0.10`. -/
def water_mass_fraction : ℚ := 1 / 10

/-- Cooling jacket wall material. -/
def wall_material : Material := Material.CopperC700

/-- Coolant mass flow rate, `mdot/(OF_ratio + 1)`. -/
def mdot_coolant : ℚ := mdot / (OF_rat + 1)

/-- Coolant inlet temperature, `298.15` K. -/
def inlet_T : ℚ := 29815 / 100

/-- The propellant/mass-fraction list handed to `e.add_propellants_by_mass`. -/
def e_propellants : List (String × ℚ) :=
  [(ipa, 1 - water_mass_fraction), (water, water_mass_fraction), (n2o, OF_rat)]

/-- The pressure handed to `e.set_state(P=pc/1e5, type=HP)` (bar). -/
def equil_P : ℚ := pc / 100000

/-- The solved equilibrium `e`. -/
def e (lib : ExtLib) : EquilibriumResult := lib.equil e_propellants equil_P

/-- `gamma = e.properties.Isex`. -/
def gamma (lib : ExtLib) : ℚ := (e lib).properties.Isex

/-- `cp = 1000*e.properties.Cp` (J/kg/K). -/
def cp (lib : ExtLib) : ℚ := 1000 * (e lib).properties.Cp

/-- `Tc = e.properties.T`. -/
def Tc (lib : ExtLib) : ℚ := (e lib).properties.T

/-- Coolant mixture: isopropanol/water at mass fractions `[1 - wmf, wmf]`. -/
def thermo_coolant : Mixture :=
  ⟨["isopropanol", "water"], FracSpec.ws [1 - water_mass_fraction, water_mass_fraction]⟩

/-- Exhaust gas mixture: N2/H2O/CO2 at the equilibrium mole fractions. -/
def thermo_gas (lib : ExtLib) : Mixture :=
  ⟨["N2", "H2O", "CO2"],
   FracSpec.zs [(e lib).composition "N2", (e lib).composition "H2O", (e lib).composition "CO2"]⟩

/-- Exhaust transport-property model. -/
def gas_transport (lib : ExtLib) : TransportProperties := ⟨"thermo", thermo_gas lib, "g"⟩

/-- Coolant transport-property model. -/
def coolant_transport : TransportProperties := ⟨"thermo", thermo_coolant, "l"⟩

/-- `bam.PerfectGas(gamma, cp)`. -/
def perfect_gas (lib : ExtLib) : PerfectGas := ⟨gamma lib, cp lib⟩

/-- `bam.ChamberConditions(pc, Tc, mdot)`. -/
def chamber_conditions (lib : ExtLib) : ChamberConditions := ⟨pc, Tc lib, mdot⟩

/-- `bam.Nozzle.from_engine_components(..., type="rao", length_fraction=0.8)`. -/
def nozzle (lib : ExtLib) : Nozzle :=
  lib.nozzle_from_engine_components (perfect_gas lib) (chamber_conditions lib) p_amb "rao" (8 / 10)

/-- The bare `bam.Engine(perfect_gas, chamber_conditions, nozzle)`. -/
def white_dwarf_bare (lib : ExtLib) : Engine :=
  ⟨perfect_gas lib, chamber_conditions lib, nozzle lib, none, none, none, none⟩

/-- `chamber_length = L_star*nozzle.At/Ac`. -/
def chamber_length (lib : ExtLib) : ℚ := L_star * (nozzle lib).At / Ac

/-- The engine after the construction performed before the sweep loop:
geometry, exhaust transport and ablative are attached; no cooling jacket yet. -/
def white_dwarf (lib : ExtLib) : Engine :=
  (((white_dwarf_bare lib).add_geometry (chamber_length lib) Ac wall_thickness).add_exhaust_transport
      (gas_transport lib)).add_ablative Material.Graphite Material.CopperC700
    (33 / 10000000) [-100, 100] none

/-- The engine inside `get_data`: the pre-sweep engine with the cooling jacket
re-attached at the given channel height. -/
def engine_with_jacket (lib : ExtLib) (channel_height : ℚ) : Engine :=
  (white_dwarf lib).add_cooling_jacket wall_material inlet_T p_tank coolant_transport
    mdot_coolant "vertical" channel_height

/-- `get_data(channel_height)`: re-attach the jacket, run the heating analysis
with `number_of_points=250, to_json=False`. -/
def get_data (lib : ExtLib) (channel_height : ℚ) : CoolingData :=
  lib.steady_heating_analysis (engine_with_jacket lib channel_height) 250 false

/-- `heights = np.linspace(0.5e-3, 5e-3, 20)`. -/
def heights : List ℚ := linspace (1 / 2000) (1 / 200) 20

/-- The arrays filled by the sweep loop, plus a ghost trace of the heating
analysis invocations (swept value, `number_of_points`). -/
structure SweepState where
  isps : List ℚ
  max_inner_wall_Ts : List ℚ
  pressure_drop : List ℚ
  analysis_calls : List (ℚ × ℕ)
deriving DecidableEq

/-- The `np.zeros(len(heights))` arrays before the loop. -/
def initState : SweepState :=
  ⟨List.replicate 20 0, List.replicate 20 0, List.replicate 20 0, []⟩

/-- One iteration of the sweep loop body. -/
def loopBody (lib : ExtLib) (st : SweepState) (i : ℕ) : SweepState :=
  let data := get_data lib (heights.getD i 0)
  { st with
    max_inner_wall_Ts := st.max_inner_wall_Ts.set i (amax data.T_wall_inner)
    pressure_drop := st.pressure_drop.set i (data.p_coolant.headD 0 - data.p_coolant.getLastD 0)
    analysis_calls := st.analysis_calls ++ [(heights.getD i 0, 250)] }

/-- The state after `for i in range(len(heights))`. -/
def finalState (lib : ExtLib) : SweepState :=
  (List.range heights.length).foldl (loopBody lib) initState

/-- x-axis of both plots: `heights/1e-3` (mm). -/
def T_plot_x : List ℚ := heights.map (fun h => h / (1 / 1000))

/-- y-values of the temperature curve: `max_inner_wall_Ts - 273.15` (°C). -/
def T_plot_y (lib : ExtLib) : List ℚ :=
  (finalState lib).max_inner_wall_Ts.map (fun T => T - 27315 / 100)

/-- y-values of the pressure-drop curve: `pressure_drop/1e5` (bar). -/
def p_plot_y (lib : ExtLib) : List ℚ :=
  (finalState lib).pressure_drop.map (fun p => p / 100000)

end VariableChannelHeight

namespace VariableWater

/-- Chamber cross-sectional area, `np.pi*0.1**2`. -/
def Ac : ℚ := np_pi * (1 / 10) ^ 2

/-- `L_star = Volume_c/Area_t`. -/
def L_star : ℚ := 3 / 2

/-- Wall thickness, `2e-3` m. -/
def wall_thickness : ℚ := 2 / 1000

/-- Chamber pressure, `15e5` Pa. -/
def pc : ℚ := 1500000

/-- Tank / inlet coolant stagnation pressure, `20e5` Pa. -/
def p_tank : ℚ := 2000000

/-- Mass flow rate, `5.4489` kg/s. -/
def mdot : ℚ := 54489 / 10000

/-- Ambient pressure, `1.01325e5` Pa. -/
def p_amb : ℚ := 101325

/-- Oxidiser/fuel mass ratio (source name `OF_ratio`), `3.5`. -/
def OF_rat : ℚ := 7 / 2

/-- Cooling jacket wall material. -/
def wall_material : Material := Material.CopperC700

/-- Coolant mass flow rate, `mdot/(OF_ratio + 1)`. -/
def mdot_coolant : ℚ := mdot / (OF_rat + 1)

/-- Coolant inlet temperature, `298.15` K. -/
def inlet_T : ℚ := 29815 / 100

/-- The propellant/mass-fraction list handed to `e.add_propellants_by_mass`
(and identically to `p.add_propellants_by_mass`): isopropyl alcohol `1`,
water `water_mass_fraction`, nitrous oxide `OF_ratio`. -/
def e_propellants (water_mass_fraction : ℚ) : List (String × ℚ) :=
  [(ipa, 1), (water, water_mass_fraction), (n2o, OF_rat)]

/-- The pressure handed to `e.set_state(P=pc/p_amb, type=HP)` (atmospheres). -/
def equil_P : ℚ := pc / p_amb

/-- The solved equilibrium `e`. -/
def e (lib : ExtLib) (water_mass_fraction : ℚ) : EquilibriumResult :=
  lib.equil (e_propellants water_mass_fraction) equil_P

/-- The `ShiftingPerformance` solve `p.set_state(P=pc/p_amb, Pe=1)`; its result
is never read by the script. -/
def p_shift (lib : ExtLib) (water_mass_fraction : ℚ) : ℚ :=
  lib.shifting (e_propellants water_mass_fraction) equil_P 1

/-- `gamma = e.properties.Isex`. -/
def gamma (lib : ExtLib) (w : ℚ) : ℚ := (e lib w).properties.Isex

/-- `cp = 1000*e.properties.Cp` (J/kg/K). -/
def cp (lib : ExtLib) (w : ℚ) : ℚ := 1000 * (e lib w).properties.Cp

/-- `Tc = e.properties.T`. -/
def Tc (lib : ExtLib) (w : ℚ) : ℚ := (e lib w).properties.T

/-- Coolant mixture: isopropanol/water at mass fractions `[1 - w, w]`. -/
def thermo_coolant (w : ℚ) : Mixture :=
  ⟨["isopropanol", "water"], FracSpec.ws [1 - w, w]⟩

/-- Exhaust gas mixture: N2/H2O/CO2 at the equilibrium mole fractions. -/
def thermo_gas (lib : ExtLib) (w : ℚ) : Mixture :=
  ⟨["N2", "H2O", "CO2"],
   FracSpec.zs [(e lib w).composition "N2", (e lib w).composition "H2O",
     (e lib w).composition "CO2"]⟩

/-- Exhaust transport-property model. -/
def gas_transport (lib : ExtLib) (w : ℚ) : TransportProperties := ⟨"thermo", thermo_gas lib w, "g"⟩

/-- Coolant transport-property model. -/
def coolant_transport (w : ℚ) : TransportProperties := ⟨"thermo", thermo_coolant w, "l"⟩

/-- `bam.PerfectGas(gamma, cp)`. -/
def perfect_gas (lib : ExtLib) (w : ℚ) : PerfectGas := ⟨gamma lib w, cp lib w⟩

/-- `bam.ChamberConditions(pc, Tc, mdot)`. -/
def chamber_conditions (lib : ExtLib) (w : ℚ) : ChamberConditions := ⟨pc, Tc lib w, mdot⟩

/-- `bam.Nozzle.from_engine_components(..., type="rao", length_fraction=0.8)`. -/
def nozzle (lib : ExtLib) (w : ℚ) : Nozzle :=
  lib.nozzle_from_engine_components (perfect_gas lib w) (chamber_conditions lib w) p_amb
    "rao" (8 / 10)

/-- The bare `bam.Engine(perfect_gas, chamber_conditions, nozzle)`. -/
def white_dwarf_bare (lib : ExtLib) (w : ℚ) : Engine :=
  ⟨perfect_gas lib w, chamber_conditions lib w, nozzle lib w, none, none, none, none⟩

/-- `chamber_length = L_star*nozzle.At/Ac`. -/
def chamber_length (lib : ExtLib) (w : ℚ) : ℚ := L_star * (nozzle lib w).At / Ac

/-- The fully built engine of `white_dwarf_cooling_data`: geometry, exhaust
transport, and the vertical cooling jacket at `channel_height = 0.001`;
no ablative is attached in this script. -/
def white_dwarf (lib : ExtLib) (w : ℚ) : Engine :=
  (((white_dwarf_bare lib w).add_geometry (chamber_length lib w) Ac
        wall_thickness).add_exhaust_transport (gas_transport lib w)).add_cooling_jacket
    wall_material inlet_T p_tank (coolant_transport w) mdot_coolant "vertical" (1 / 1000)

/-- `cooling_data = white_dwarf.steady_heating_analysis(number_of_points=250, to_json=False)`. -/
def cooling_data (lib : ExtLib) (w : ℚ) : CoolingData :=
  lib.steady_heating_analysis (white_dwarf lib w) 250 false

/-- `white_dwarf_cooling_data(water_mass_fraction)`: the cooling data and
`white_dwarf.isp(p_amb)`. -/
def white_dwarf_cooling_data (lib : ExtLib) (water_mass_fraction : ℚ) : CoolingData × ℚ :=
  (cooling_data lib water_mass_fraction, lib.isp (white_dwarf lib water_mass_fraction) p_amb)

/-- `water_mass_fractions = np.linspace(0, 0.8, 20)`. -/
def water_mass_fractions : List ℚ := linspace 0 (4 / 5) 20

/-- The arrays filled by the sweep loop, plus a ghost trace of the heating
analysis invocations (swept value, `number_of_points`). -/
structure SweepState where
  isps : List ℚ
  max_inner_wall_Ts : List ℚ
  analysis_calls : List (ℚ × ℕ)
deriving DecidableEq

/-- The `np.zeros(len(water_mass_fractions))` arrays before the loop. -/
def initState : SweepState := ⟨List.replicate 20 0, List.replicate 20 0, []⟩

/-- One iteration of the sweep loop body. -/
def loopBody (lib : ExtLib) (st : SweepState) (i : ℕ) : SweepState :=
  let res := white_dwarf_cooling_data lib (water_mass_fractions.getD i 0)
  { isps := st.isps.set i res.2
    max_inner_wall_Ts := st.max_inner_wall_Ts.set i (amax res.1.T_wall_inner)
    analysis_calls := st.analysis_calls ++ [(water_mass_fractions.getD i 0, 250)] }

/-- The state after `for i in range(len(water_mass_fractions))`. -/
def finalState (lib : ExtLib) : SweepState :=
  (List.range water_mass_fractions.length).foldl (loopBody lib) initState

/-- x-axis of both plots: the water mass fractions themselves. -/
def T_plot_x : List ℚ := water_mass_fractions

/-- y-values of the temperature curve: `max_inner_wall_Ts - 273.15` (°C). -/
def T_plot_y (lib : ExtLib) : List ℚ :=
  (finalState lib).max_inner_wall_Ts.map (fun T => T - 27315 / 100)

/-- y-values of the Isp curve: the `isps` array, plotted unchanged (s). -/
def isp_plot_y (lib : ExtLib) : List ℚ := (finalState lib).isps

/-- Mass fraction of water within the fuel (isopropyl alcohol + water) of the
propellant list handed to the equilibrium. -/
def fuel_water_fraction (w : ℚ) : ℚ :=
  massOf (e_propellants w) water / (massOf (e_propellants w) water + massOf (e_propellants w) ipa)

end VariableWater

/-- A concrete instantiation of the external libraries by constant functions,
used to evaluate the embedding on closed inputs. -/
def constLib : ExtLib where
  equil := fun _ _ => ⟨⟨6 / 5, 2, 3000⟩, fun _ => 1 / 3⟩
  shifting := fun _ _ _ => 0
  nozzle_from_engine_components := fun _ _ _ _ _ => ⟨1 / 100⟩
  steady_heating_analysis := fun _ _ _ => ⟨[400, 500, 450], [2000000, 1950000, 1900000]⟩
  isp := fun _ _ => 100

/-- A second instantiation, identical to `constLib` except for the `isp`
method. -/
def constLib2 : ExtLib where
  equil := fun _ _ => ⟨⟨6 / 5, 2, 3000⟩, fun _ => 1 / 3⟩
  shifting := fun _ _ _ => 0
  nozzle_from_engine_components := fun _ _ _ _ _ => ⟨1 / 100⟩
  steady_heating_analysis := fun _ _ _ => ⟨[400, 500, 450], [2000000, 1950000, 1900000]⟩
  isp := fun _ _ => 200

end BambooInvestigations

namespace BambooInvestigations

/-- Reading back the entry just written by `List.set`. -/
theorem getD_set_same (l : List ℚ) (i : ℕ) (a : ℚ) (h : i < l.length) :
    (l.set i a).getD i 0 = a := by
  rw [List.getD_eq_getElem?_getD, List.getElem?_set_eq_of_lt a h]
  rfl

/-- `List.set` leaves the other entries unchanged. -/
theorem getD_set_other (l : List ℚ) (m i : ℕ) (a : ℚ) (h : m ≠ i) :
    (l.set m a).getD i 0 = l.getD i 0 := by
  rw [List.getD_eq_getElem?_getD, List.getD_eq_getElem?_getD, List.getElem?_set_ne h]

/-- `getD` through `List.map`, inside the bounds. -/
theorem getD_map_of_lt (f : ℚ → ℚ) (l : List ℚ) (i : ℕ) (h : i < l.length) :
    (l.map f).getD i 0 = f (l.getD i 0) := by
  rw [List.getD_eq_getElem?_getD, List.getD_eq_getElem?_getD, List.getElem?_map,
    List.getElem?_eq_getElem h]
  rfl

/-- Entry `i` of `linspace a b n`. -/
theorem linspace_getD (a b : ℚ) (n i : ℕ) (h : i < n) :
    (linspace a b n).getD i 0 = a + (i : ℚ) * ((b - a) / ((n : ℚ) - 1)) := by
  unfold linspace
  rw [List.getD_eq_getElem?_getD, List.getElem?_map, List.getElem?_range h]
  rfl

/-- `linspace a b n` has `n` entries. -/
theorem linspace_length (a b : ℚ) (n : ℕ) : (linspace a b n).length = n := by
  simp [linspace]

/-- Folding index-wise writes preserves the length of the array. -/
theorem foldl_set_length (f : ℕ → ℚ) (L : List ℕ) (l0 : List ℚ) :
    (L.foldl (fun l j => l.set j (f j)) l0).length = l0.length := by
  induction L generalizing l0 with
  | nil => rfl
  | cons a t ih => rw [List.foldl_cons, ih, List.length_set]

/-- After writing `f j` at every index `j < n` into an array of length at
least `n`, entry `i < n` reads `f i` — whatever the array held before. -/
theorem foldl_range_set_getD (f : ℕ → ℚ) (n : ℕ) (l0 : List ℚ) (hn : n ≤ l0.length)
    (i : ℕ) (hi : i < n) :
    ((List.range n).foldl (fun l j => l.set j (f j)) l0).getD i 0 = f i := by
  induction n with
  | zero => exact absurd hi (Nat.not_lt_zero i)
  | succ m ih =>
    rw [List.range_succ, List.foldl_append, List.foldl_cons, List.foldl_nil]
    by_cases him : i = m
    · subst him
      exact getD_set_same _ _ _ (by rw [foldl_set_length]; omega)
    · rw [getD_set_other _ _ _ _ (fun hmi => him hmi.symm)]
      exact ih (by omega) (by omega)

/-- Folding appends of singletons is the same as appending the map. -/
theorem foldl_append_singleton (g : ℕ → ℚ × ℕ) (L : List ℕ) (c0 : List (ℚ × ℕ)) :
    L.foldl (fun c j => c ++ [g j]) c0 = c0 ++ L.map g := by
  induction L generalizing c0 with
  | nil => simp
  | cons a t ih => rw [List.foldl_cons, ih, List.map_cons]; simp

/-- The channel-height sweep loop never writes the `isps` array. -/
theorem channel_foldl_isps (lib : ExtLib) (L : List ℕ) (st : VariableChannelHeight.SweepState) :
    (L.foldl (VariableChannelHeight.loopBody lib) st).isps = st.isps := by
  induction L generalizing st with
  | nil => rfl
  | cons a t ih => rw [List.foldl_cons]; exact ih _

/-- Projection of the channel-height sweep onto the `max_inner_wall_Ts` array. -/
theorem channel_foldl_maxTs (lib : ExtLib) (L : List ℕ) (st : VariableChannelHeight.SweepState) :
    (L.foldl (VariableChannelHeight.loopBody lib) st).max_inner_wall_Ts
      = L.foldl
          (fun l j => l.set j
            (amax (VariableChannelHeight.get_data lib
              (VariableChannelHeight.heights.getD j 0)).T_wall_inner))
          st.max_inner_wall_Ts := by
  induction L generalizing st with
  | nil => rfl
  | cons a t ih => rw [List.foldl_cons, List.foldl_cons]; exact ih _

/-- Projection of the channel-height sweep onto the `pressure_drop` array. -/
theorem channel_foldl_pdrop (lib : ExtLib) (L : List ℕ) (st : VariableChannelHeight.SweepState) :
    (L.foldl (VariableChannelHeight.loopBody lib) st).pressure_drop
      = L.foldl
          (fun l j => l.set j
            ((VariableChannelHeight.get_data lib
                (VariableChannelHeight.heights.getD j 0)).p_coolant.headD 0
              - (VariableChannelHeight.get_data lib
                  (VariableChannelHeight.heights.getD j 0)).p_coolant.getLastD 0))
          st.pressure_drop := by
  induction L generalizing st with
  | nil => rfl
  | cons a t ih => rw [List.foldl_cons, List.foldl_cons]; exact ih _

/-- Projection of the channel-height sweep onto the ghost call trace. -/
theorem channel_foldl_calls (lib : ExtLib) (L : List ℕ) (st : VariableChannelHeight.SweepState) :
    (L.foldl (VariableChannelHeight.loopBody lib) st).analysis_calls
      = L.foldl (fun c j => c ++ [(VariableChannelHeight.heights.getD j 0, 250)])
          st.analysis_calls := by
  induction L generalizing st with
  | nil => rfl
  | cons a t ih => rw [List.foldl_cons, List.foldl_cons]; exact ih _

/-- Projection of the water sweep onto the `isps` array. -/
theorem water_foldl_isps (lib : ExtLib) (L : List ℕ) (st : VariableWater.SweepState) :
    (L.foldl (VariableWater.loopBody lib) st).isps
      = L.foldl
          (fun l j => l.set j
            (VariableWater.white_dwarf_cooling_data lib
              (VariableWater.water_mass_fractions.getD j 0)).2)
          st.isps := by
  induction L generalizing st with
  | nil => rfl
  | cons a t ih => rw [List.foldl_cons, List.foldl_cons]; exact ih _

/-- Projection of the water sweep onto the `max_inner_wall_Ts` array. -/
theorem water_foldl_maxTs (lib : ExtLib) (L : List ℕ) (st : VariableWater.SweepState) :
    (L.foldl (VariableWater.loopBody lib) st).max_inner_wall_Ts
      = L.foldl
          (fun l j => l.set j
            (amax (VariableWater.white_dwarf_cooling_data lib
              (VariableWater.water_mass_fractions.getD j 0)).1.T_wall_inner))
          st.max_inner_wall_Ts := by
  induction L generalizing st with
  | nil => rfl
  | cons a t ih => rw [List.foldl_cons, List.foldl_cons]; exact ih _

/-- Projection of the water sweep onto the ghost call trace. -/
theorem water_foldl_calls (lib : ExtLib) (L : List ℕ) (st : VariableWater.SweepState) :
    (L.foldl (VariableWater.loopBody lib) st).analysis_calls
      = L.foldl (fun c j => c ++ [(VariableWater.water_mass_fractions.getD j 0, 250)])
          st.analysis_calls := by
  induction L generalizing st with
  | nil => rfl
  | cons a t ih => rw [List.foldl_cons, List.foldl_cons]; exact ih _

/-- The channel-height sweep has 20 points. -/
theorem channel_heights_length : VariableChannelHeight.heights.length = 20 :=
  linspace_length _ _ _

/-- The water sweep has 20 points. -/
theorem water_fractions_length : VariableWater.water_mass_fractions.length = 20 :=
  linspace_length _ _ _

end BambooInvestigations

namespace BambooInvestigations

/-- Mapping an index-to-entry read over `List.range` recovers the plain map. -/
theorem range_map_getD (l : List ℚ) (g : ℚ → ℚ × ℕ) :
    (List.range l.length).map (fun j => g (l.getD j 0)) = l.map g := by
  apply List.ext_getElem
  · simp
  · intro i h1 h2
    simp only [List.getElem_map, List.getElem_range, List.length_range] at *
    congr 1
    rw [List.getD_eq_getElem?_getD, List.getElem?_eq_getElem (by simpa using h1)]
    rfl

/-- The `isps` array of the channel-height script is never written: it stays
all zeros, whatever the external libraries return. -/
theorem channel_isps_replicate (lib : ExtLib) :
    (VariableChannelHeight.finalState lib).isps = List.replicate 20 (0 : ℚ) := by
  unfold VariableChannelHeight.finalState
  rw [channel_foldl_isps]
  rfl

/-- Entry `i` of the filled `max_inner_wall_Ts` array of the channel sweep. -/
theorem channel_maxTs_getD (lib : ExtLib) (i : ℕ) (hi : i < 20) :
    (VariableChannelHeight.finalState lib).max_inner_wall_Ts.getD i 0
      = amax (VariableChannelHeight.get_data lib
          (VariableChannelHeight.heights.getD i 0)).T_wall_inner := by
  unfold VariableChannelHeight.finalState
  rw [channel_heights_length, channel_foldl_maxTs]
  exact foldl_range_set_getD _ 20 _ (by decide) i hi

/-- Entry `i` of the filled `pressure_drop` array of the channel sweep. -/
theorem channel_pdrop_getD (lib : ExtLib) (i : ℕ) (hi : i < 20) :
    (VariableChannelHeight.finalState lib).pressure_drop.getD i 0
      = (VariableChannelHeight.get_data lib
            (VariableChannelHeight.heights.getD i 0)).p_coolant.headD 0
        - (VariableChannelHeight.get_data lib
            (VariableChannelHeight.heights.getD i 0)).p_coolant.getLastD 0 := by
  unfold VariableChannelHeight.finalState
  rw [channel_heights_length, channel_foldl_pdrop]
  exact foldl_range_set_getD _ 20 _ (by decide) i hi

/-- The channel sweep runs the heating analysis once per height, in order,
always with `number_of_points = 250`. -/
theorem channel_calls_spec (lib : ExtLib) :
    (VariableChannelHeight.finalState lib).analysis_calls
      = VariableChannelHeight.heights.map (fun h => (h, 250)) := by
  unfold VariableChannelHeight.finalState
  rw [channel_foldl_calls, foldl_append_singleton,
    show VariableChannelHeight.initState.analysis_calls = ([] : List (ℚ × ℕ)) from rfl,
    List.nil_append]
  exact range_map_getD VariableChannelHeight.heights (fun h => (h, 250))

/-- Length of the filled `max_inner_wall_Ts` array of the channel sweep. -/
theorem channel_maxTs_length (lib : ExtLib) :
    (VariableChannelHeight.finalState lib).max_inner_wall_Ts.length = 20 := by
  unfold VariableChannelHeight.finalState
  rw [channel_foldl_maxTs, foldl_set_length]
  rfl

/-- Length of the filled `pressure_drop` array of the channel sweep. -/
theorem channel_pdrop_length (lib : ExtLib) :
    (VariableChannelHeight.finalState lib).pressure_drop.length = 20 := by
  unfold VariableChannelHeight.finalState
  rw [channel_foldl_pdrop, foldl_set_length]
  rfl

/-- Entry `i` of the filled `isps` array of the water sweep. -/
theorem water_isps_getD (lib : ExtLib) (i : ℕ) (hi : i < 20) :
    (VariableWater.finalState lib).isps.getD i 0
      = (VariableWater.white_dwarf_cooling_data lib
          (VariableWater.water_mass_fractions.getD i 0)).2 := by
  unfold VariableWater.finalState
  rw [water_fractions_length, water_foldl_isps]
  exact foldl_range_set_getD _ 20 _ (by decide) i hi

/-- Entry `i` of the filled `max_inner_wall_Ts` array of the water sweep. -/
theorem water_maxTs_getD (lib : ExtLib) (i : ℕ) (hi : i < 20) :
    (VariableWater.finalState lib).max_inner_wall_Ts.getD i 0
      = amax (VariableWater.white_dwarf_cooling_data lib
          (VariableWater.water_mass_fractions.getD i 0)).1.T_wall_inner := by
  unfold VariableWater.finalState
  rw [water_fractions_length, water_foldl_maxTs]
  exact foldl_range_set_getD _ 20 _ (by decide) i hi

/-- The water sweep runs the heating analysis once per fraction, in order,
always with `number_of_points = 250`. -/
theorem water_calls_spec (lib : ExtLib) :
    (VariableWater.finalState lib).analysis_calls
      = VariableWater.water_mass_fractions.map (fun w => (w, 250)) := by
  unfold VariableWater.finalState
  rw [water_foldl_calls, foldl_append_singleton,
    show VariableWater.initState.analysis_calls = ([] : List (ℚ × ℕ)) from rfl,
    List.nil_append]
  exact range_map_getD VariableWater.water_mass_fractions (fun w => (w, 250))

/-- Length of the filled `max_inner_wall_Ts` array of the water sweep. -/
theorem water_maxTs_length (lib : ExtLib) :
    (VariableWater.finalState lib).max_inner_wall_Ts.length = 20 := by
  unfold VariableWater.finalState
  rw [water_foldl_maxTs, foldl_set_length]
  rfl

/-- Length of the filled `isps` array of the water sweep. -/
theorem water_isps_length (lib : ExtLib) :
    (VariableWater.finalState lib).isps.length = 20 := by
  unfold VariableWater.finalState
  rw [water_foldl_isps, foldl_set_length]
  rfl

end BambooInvestigations

namespace BambooInvestigations

/-- C1 counterexample: the claim says both scripts collect the Isp, but the
channel-height script never writes its `isps` array — its collected `isps`
stay all zeros even when the engine model's Isp is `100` everywhere, and its
whole sweep output is unchanged when the external Isp method is replaced by
one returning `200`. -/
theorem C1_counterexample :
    (VariableChannelHeight.finalState constLib).isps = List.replicate 20 (0 : ℚ)
      ∧ VariableChannelHeight.finalState constLib = VariableChannelHeight.finalState constLib2
      ∧ constLib.isp (VariableChannelHeight.engine_with_jacket constLib (1 / 1000))
          VariableChannelHeight.p_amb = 100
      ∧ constLib2.isp (VariableChannelHeight.engine_with_jacket constLib2 (1 / 1000))
          VariableChannelHeight.p_amb = 200
      ∧ (100 : ℚ) ≠ 200 := by
  exact ⟨channel_isps_replicate constLib, rfl, rfl, rfl, by norm_num⟩

/-- C1 (amended): for every swept value each script re-runs the steady-state
heating analysis; the channel-height script collects the maximum inner-wall
temperature and the coolant pressure drop while its `isps` array is never
written (it stays all zeros), and the water script collects the maximum
inner-wall temperature and the Isp. -/
theorem C1_amended_thm (lib : ExtLib) (i : ℕ) (hi : i < 20) :
    (VariableChannelHeight.finalState lib).max_inner_wall_Ts.getD i 0
        = amax (VariableChannelHeight.get_data lib
            (VariableChannelHeight.heights.getD i 0)).T_wall_inner
      ∧ (VariableChannelHeight.finalState lib).pressure_drop.getD i 0
          = (VariableChannelHeight.get_data lib
                (VariableChannelHeight.heights.getD i 0)).p_coolant.headD 0
            - (VariableChannelHeight.get_data lib
                (VariableChannelHeight.heights.getD i 0)).p_coolant.getLastD 0
      ∧ (VariableChannelHeight.finalState lib).isps = List.replicate 20 (0 : ℚ)
      ∧ (VariableWater.finalState lib).max_inner_wall_Ts.getD i 0
          = amax (VariableWater.white_dwarf_cooling_data lib
              (VariableWater.water_mass_fractions.getD i 0)).1.T_wall_inner
      ∧ (VariableWater.finalState lib).isps.getD i 0
          = (VariableWater.white_dwarf_cooling_data lib
              (VariableWater.water_mass_fractions.getD i 0)).2 := by
  exact ⟨channel_maxTs_getD lib i hi, channel_pdrop_getD lib i hi,
    channel_isps_replicate lib, water_maxTs_getD lib i hi, water_isps_getD lib i hi⟩

/-- C1 witness: the amended statement evaluated at the constant library and
sweep index 2. -/
theorem C1_witness :
    2 < 20
      ∧ ((VariableChannelHeight.finalState constLib).max_inner_wall_Ts.getD 2 0
            = amax (VariableChannelHeight.get_data constLib
                (VariableChannelHeight.heights.getD 2 0)).T_wall_inner
          ∧ (VariableChannelHeight.finalState constLib).pressure_drop.getD 2 0
              = (VariableChannelHeight.get_data constLib
                    (VariableChannelHeight.heights.getD 2 0)).p_coolant.headD 0
                - (VariableChannelHeight.get_data constLib
                    (VariableChannelHeight.heights.getD 2 0)).p_coolant.getLastD 0
          ∧ (VariableChannelHeight.finalState constLib).isps = List.replicate 20 (0 : ℚ)
          ∧ (VariableWater.finalState constLib).max_inner_wall_Ts.getD 2 0
              = amax (VariableWater.white_dwarf_cooling_data constLib
                  (VariableWater.water_mass_fractions.getD 2 0)).1.T_wall_inner
          ∧ (VariableWater.finalState constLib).isps.getD 2 0
              = (VariableWater.white_dwarf_cooling_data constLib
                  (VariableWater.water_mass_fractions.getD 2 0)).2) :=
  ⟨by decide, C1_amended_thm constLib 2 (by decide)⟩

/-- C2 counterexample: the two scripts do not build the same model — the tank
pressure is 50e5 Pa in the channel-height script but 20e5 Pa in the water
script, the chamber pressure is handed to the equilibrium solve in bar
(`pc/1e5`) in one and in atmospheres (`pc/p_amb`) in the other, the fuel
mass-fraction lists differ even at the channel script's fixed water fraction,
and only the channel-height script attaches an ablative. -/
theorem C2_counterexample :
    VariableChannelHeight.p_tank = 5000000
      ∧ VariableWater.p_tank = 2000000
      ∧ VariableChannelHeight.p_tank ≠ VariableWater.p_tank
      ∧ VariableChannelHeight.equil_P = 15
      ∧ VariableWater.equil_P = 1500000 / 101325
      ∧ VariableChannelHeight.equil_P ≠ VariableWater.equil_P
      ∧ VariableChannelHeight.e_propellants
          ≠ VariableWater.e_propellants VariableChannelHeight.water_mass_fraction
      ∧ (VariableChannelHeight.white_dwarf constLib).ablative
          = some ⟨Material.Graphite, Material.CopperC700, 33 / 10000000, [-100, 100], none⟩
      ∧ (VariableWater.white_dwarf constLib (1 / 10)).ablative = none := by
  refine ⟨rfl, rfl, ?_, ?_, ?_, ?_, ?_, rfl, rfl⟩
  · norm_num [VariableChannelHeight.p_tank, VariableWater.p_tank]
  · norm_num [VariableChannelHeight.equil_P, VariableChannelHeight.pc]
  · norm_num [VariableWater.equil_P, VariableWater.pc, VariableWater.p_amb]
  · norm_num [VariableChannelHeight.equil_P, VariableWater.equil_P,
      VariableChannelHeight.pc, VariableWater.pc, VariableWater.p_amb]
  · norm_num [VariableChannelHeight.e_propellants, VariableWater.e_propellants,
      VariableChannelHeight.water_mass_fraction]

/-- C2 (amended): apart from the swept parameter the two scripts share the
chamber conditions (`pc`, `mdot`), the OF ratio, the geometry constants, the
ambient pressure, the coolant inlet temperature and mass flow rate, the wall
material and the vertical jacket configuration; but they differ in the tank
pressure (50e5 vs 20e5 Pa), in the units of the chamber pressure handed to
the equilibrium solve (bar vs atmospheres), in the fuel mass-fraction
normalisation, and only the channel-height script attaches an ablative. -/
theorem C2_amended_thm (lib : ExtLib) (w h : ℚ) :
    VariableChannelHeight.pc = VariableWater.pc
      ∧ VariableChannelHeight.mdot = VariableWater.mdot
      ∧ VariableChannelHeight.OF_rat = VariableWater.OF_rat
      ∧ VariableChannelHeight.Ac = VariableWater.Ac
      ∧ VariableChannelHeight.L_star = VariableWater.L_star
      ∧ VariableChannelHeight.wall_thickness = VariableWater.wall_thickness
      ∧ VariableChannelHeight.p_amb = VariableWater.p_amb
      ∧ VariableChannelHeight.inlet_T = VariableWater.inlet_T
      ∧ VariableChannelHeight.mdot_coolant = VariableWater.mdot_coolant
      ∧ VariableChannelHeight.wall_material = VariableWater.wall_material
      ∧ VariableChannelHeight.p_tank = 5000000
      ∧ VariableWater.p_tank = 2000000
      ∧ VariableChannelHeight.equil_P = VariableChannelHeight.pc / 100000
      ∧ VariableWater.equil_P = VariableWater.pc / VariableWater.p_amb
      ∧ VariableChannelHeight.equil_P ≠ VariableWater.equil_P
      ∧ VariableChannelHeight.e_propellants
          = [(ipa, 1 - VariableChannelHeight.water_mass_fraction),
             (water, VariableChannelHeight.water_mass_fraction),
             (n2o, VariableChannelHeight.OF_rat)]
      ∧ VariableWater.e_propellants w = [(ipa, 1), (water, w), (n2o, VariableWater.OF_rat)]
      ∧ (VariableChannelHeight.white_dwarf lib).ablative
          = some ⟨Material.Graphite, Material.CopperC700, 33 / 10000000, [-100, 100], none⟩
      ∧ (VariableWater.white_dwarf lib w).ablative = none
      ∧ (VariableChannelHeight.engine_with_jacket lib h).cooling_jacket
          = some ⟨VariableChannelHeight.wall_material, VariableChannelHeight.inlet_T,
              VariableChannelHeight.p_tank, VariableChannelHeight.coolant_transport,
              VariableChannelHeight.mdot_coolant, "vertical", h⟩
      ∧ (VariableWater.white_dwarf lib w).cooling_jacket
          = some ⟨VariableWater.wall_material, VariableWater.inlet_T, VariableWater.p_tank,
              VariableWater.coolant_transport w, VariableWater.mdot_coolant, "vertical",
              1 / 1000⟩ := by
  refine ⟨rfl, rfl, rfl, rfl, rfl, rfl, rfl, rfl, rfl, rfl, rfl, rfl, rfl, rfl, ?_,
    rfl, rfl, rfl, rfl, rfl, rfl⟩
  norm_num [VariableChannelHeight.equil_P, VariableWater.equil_P,
    VariableChannelHeight.pc, VariableWater.pc, VariableWater.p_amb]

/-- C3 counterexample: at swept value `w = 1/2` the fuel handed to the
equilibrium is isopropyl alcohol `1` and water `1/2` — not `1 - w` and `w` —
so the water mass fraction of the fuel is `1/3`, not `1/2`, while the coolant
mixture is built with mass fractions `[1/2, 1/2]`. -/
theorem C3_counterexample :
    VariableWater.e_propellants (1 / 2) = [(ipa, 1), (water, 1 / 2), (n2o, 7 / 2)]
      ∧ VariableWater.e_propellants (1 / 2)
          ≠ [(ipa, 1 - 1 / 2), (water, 1 / 2), (n2o, 7 / 2)]
      ∧ VariableWater.fuel_water_fraction (1 / 2) = 1 / 3
      ∧ (1 / 3 : ℚ) ≠ 1 / 2
      ∧ VariableWater.thermo_coolant (1 / 2)
          = ⟨["isopropanol", "water"], FracSpec.ws [1 / 2, 1 / 2]⟩ := by
  refine ⟨rfl, ?_, ?_, by norm_num, ?_⟩
  · norm_num [VariableWater.e_propellants]
  · simp +decide only [VariableWater.fuel_water_fraction, massOf,
      VariableWater.e_propellants, ipa, water, n2o]
    norm_num
  · show Mixture.mk _ (FracSpec.ws [1 - 1 / 2, 1 / 2]) = _
    norm_num

/-- C3 (amended): in `variable_water.py` the fuel supplied to the equilibrium
is isopropyl alcohol `1` and water `w` by mass, so the water mass fraction of
the fuel is `w/(1+w)`, while the coolant mixture is built with mass fractions
`[1-w, w]`; the fuel's water fraction equals the swept value `w` only at
`w = 0`. -/
theorem C3_amended_thm (w : ℚ) (hw : 0 ≤ w) :
    VariableWater.e_propellants w = [(ipa, 1), (water, w), (n2o, VariableWater.OF_rat)]
      ∧ VariableWater.thermo_coolant w
          = ⟨["isopropanol", "water"], FracSpec.ws [1 - w, w]⟩
      ∧ VariableWater.fuel_water_fraction w = w / (1 + w)
      ∧ (VariableWater.fuel_water_fraction w = w ↔ w = 0) := by
  have hne : (1 + w) ≠ 0 := by positivity
  have h : VariableWater.fuel_water_fraction w = w / (1 + w) := by
    simp +decide only [VariableWater.fuel_water_fraction, massOf,
      VariableWater.e_propellants, ipa, water, n2o, if_true, if_false]
    ring_nf
  refine ⟨rfl, rfl, h, ?_⟩
  rw [h]
  constructor
  · intro hq
    field_simp at hq
    have h2 : w * w = 0 := by linear_combination -hq
    exact mul_self_eq_zero.mp h2
  · intro hq
    subst hq
    norm_num

/-- C3 witness: the amended statement evaluated at `w = 1/4`. -/
theorem C3_witness :
    (0 : ℚ) ≤ 1 / 4
      ∧ (VariableWater.e_propellants (1 / 4)
            = [(ipa, 1), (water, 1 / 4), (n2o, VariableWater.OF_rat)]
          ∧ VariableWater.thermo_coolant (1 / 4)
              = ⟨["isopropanol", "water"], FracSpec.ws [1 - 1 / 4, 1 / 4]⟩
          ∧ VariableWater.fuel_water_fraction (1 / 4) = 1 / 4 / (1 + 1 / 4)
          ∧ (VariableWater.fuel_water_fraction (1 / 4) = 1 / 4 ↔ (1 / 4 : ℚ) = 0)) :=
  ⟨by norm_num, C3_amended_thm (1 / 4) (by norm_num)⟩

end BambooInvestigations

namespace BambooInvestigations

/-- C4: each script sweeps exactly one parameter over 20 evenly spaced values
(channel heights `0.5e-3..5e-3` m, water fractions `0..0.8`), invokes the
steady heating analysis exactly once per sweep point with
`number_of_points = 250`, and entry `i` of each collected array is derived
from sweep value `i`. -/
theorem C4_thm (lib : ExtLib) (i : ℕ) (hi : i < 20) :
    VariableChannelHeight.heights.length = 20
      ∧ VariableWater.water_mass_fractions.length = 20
      ∧ VariableChannelHeight.heights.getD i 0
          = 1 / 2000 + (i : ℚ) * ((1 / 200 - 1 / 2000) / 19)
      ∧ VariableWater.water_mass_fractions.getD i 0 = 0 + (i : ℚ) * ((4 / 5 - 0) / 19)
      ∧ (VariableChannelHeight.finalState lib).analysis_calls
          = VariableChannelHeight.heights.map (fun h => (h, 250))
      ∧ (VariableWater.finalState lib).analysis_calls
          = VariableWater.water_mass_fractions.map (fun w => (w, 250))
      ∧ (VariableChannelHeight.finalState lib).max_inner_wall_Ts.getD i 0
          = amax (VariableChannelHeight.get_data lib
              (VariableChannelHeight.heights.getD i 0)).T_wall_inner
      ∧ (VariableChannelHeight.finalState lib).pressure_drop.getD i 0
          = (VariableChannelHeight.get_data lib
                (VariableChannelHeight.heights.getD i 0)).p_coolant.headD 0
            - (VariableChannelHeight.get_data lib
                (VariableChannelHeight.heights.getD i 0)).p_coolant.getLastD 0
      ∧ (VariableWater.finalState lib).max_inner_wall_Ts.getD i 0
          = amax (VariableWater.white_dwarf_cooling_data lib
              (VariableWater.water_mass_fractions.getD i 0)).1.T_wall_inner
      ∧ (VariableWater.finalState lib).isps.getD i 0
          = (VariableWater.white_dwarf_cooling_data lib
              (VariableWater.water_mass_fractions.getD i 0)).2 := by
  refine ⟨channel_heights_length, water_fractions_length, ?_, ?_,
    channel_calls_spec lib, water_calls_spec lib, channel_maxTs_getD lib i hi,
    channel_pdrop_getD lib i hi, water_maxTs_getD lib i hi, water_isps_getD lib i hi⟩
  · show (linspace (1 / 2000) (1 / 200) 20).getD i 0 = _
    rw [linspace_getD _ _ _ _ hi]
    norm_num
  · show (linspace 0 (4 / 5) 20).getD i 0 = _
    rw [linspace_getD _ _ _ _ hi]
    norm_num

/-- C4 witness: the statement evaluated at the constant library and sweep
index 5. -/
theorem C4_witness :
    5 < 20
      ∧ (VariableChannelHeight.heights.length = 20
          ∧ VariableWater.water_mass_fractions.length = 20
          ∧ VariableChannelHeight.heights.getD 5 0
              = 1 / 2000 + (5 : ℚ) * ((1 / 200 - 1 / 2000) / 19)
          ∧ VariableWater.water_mass_fractions.getD 5 0 = 0 + (5 : ℚ) * ((4 / 5 - 0) / 19)
          ∧ (VariableChannelHeight.finalState constLib).analysis_calls
              = VariableChannelHeight.heights.map (fun h => (h, 250))
          ∧ (VariableWater.finalState constLib).analysis_calls
              = VariableWater.water_mass_fractions.map (fun w => (w, 250))
          ∧ (VariableChannelHeight.finalState constLib).max_inner_wall_Ts.getD 5 0
              = amax (VariableChannelHeight.get_data constLib
                  (VariableChannelHeight.heights.getD 5 0)).T_wall_inner
          ∧ (VariableChannelHeight.finalState constLib).pressure_drop.getD 5 0
              = (VariableChannelHeight.get_data constLib
                    (VariableChannelHeight.heights.getD 5 0)).p_coolant.headD 0
                - (VariableChannelHeight.get_data constLib
                    (VariableChannelHeight.heights.getD 5 0)).p_coolant.getLastD 0
          ∧ (VariableWater.finalState constLib).max_inner_wall_Ts.getD 5 0
              = amax (VariableWater.white_dwarf_cooling_data constLib
                  (VariableWater.water_mass_fractions.getD 5 0)).1.T_wall_inner
          ∧ (VariableWater.finalState constLib).isps.getD 5 0
              = (VariableWater.white_dwarf_cooling_data constLib
                  (VariableWater.water_mass_fractions.getD 5 0)).2) :=
  ⟨by decide, C4_thm constLib 5 (by decide)⟩

/-- C5: in the channel-height script each sweep iteration changes only the
cooling jacket: the engine handed to the analysis is exactly the pre-sweep
engine with the jacket re-attached at the new height, and the perfect gas,
chamber conditions, nozzle, geometry, exhaust transport and ablative agree
between any two iterations and with the engine constructed before the loop. -/
theorem C5_thm (lib : ExtLib) (h1 h2 : ℚ) :
    VariableChannelHeight.engine_with_jacket lib h1
        = { VariableChannelHeight.white_dwarf lib with
            cooling_jacket := some ⟨VariableChannelHeight.wall_material,
              VariableChannelHeight.inlet_T, VariableChannelHeight.p_tank,
              VariableChannelHeight.coolant_transport, VariableChannelHeight.mdot_coolant,
              "vertical", h1⟩ }
      ∧ (VariableChannelHeight.engine_with_jacket lib h1).perfect_gas
          = (VariableChannelHeight.engine_with_jacket lib h2).perfect_gas
      ∧ (VariableChannelHeight.engine_with_jacket lib h1).chamber_conditions
          = (VariableChannelHeight.engine_with_jacket lib h2).chamber_conditions
      ∧ (VariableChannelHeight.engine_with_jacket lib h1).nozzle
          = (VariableChannelHeight.engine_with_jacket lib h2).nozzle
      ∧ (VariableChannelHeight.engine_with_jacket lib h1).geometry
          = (VariableChannelHeight.engine_with_jacket lib h2).geometry
      ∧ (VariableChannelHeight.engine_with_jacket lib h1).exhaust_transport
          = (VariableChannelHeight.engine_with_jacket lib h2).exhaust_transport
      ∧ (VariableChannelHeight.engine_with_jacket lib h1).ablative
          = (VariableChannelHeight.engine_with_jacket lib h2).ablative
      ∧ (VariableChannelHeight.white_dwarf lib).perfect_gas
          = VariableChannelHeight.perfect_gas lib
      ∧ (VariableChannelHeight.white_dwarf lib).chamber_conditions
          = VariableChannelHeight.chamber_conditions lib
      ∧ (VariableChannelHeight.white_dwarf lib).nozzle = VariableChannelHeight.nozzle lib
      ∧ (VariableChannelHeight.white_dwarf lib).geometry
          = some ⟨VariableChannelHeight.chamber_length lib, VariableChannelHeight.Ac,
              VariableChannelHeight.wall_thickness⟩
      ∧ (VariableChannelHeight.white_dwarf lib).exhaust_transport
          = some (VariableChannelHeight.gas_transport lib)
      ∧ (VariableChannelHeight.white_dwarf lib).ablative
          = some ⟨Material.Graphite, Material.CopperC700, 33 / 10000000, [-100, 100],
              none⟩ :=
  ⟨rfl, rfl, rfl, rfl, rfl, rfl, rfl, rfl, rfl, rfl, rfl, rfl, rfl⟩

/-- C6: for every height in the sweep, the reported coolant pressure drop is
the first element minus the last element of the coolant pressure profile
returned by the heating analysis, and the plotted value is that drop divided
by `1e5` (bar). -/
theorem C6_thm (lib : ExtLib) (i : ℕ) (hi : i < 20) :
    (VariableChannelHeight.finalState lib).pressure_drop.getD i 0
        = (VariableChannelHeight.get_data lib
              (VariableChannelHeight.heights.getD i 0)).p_coolant.headD 0
          - (VariableChannelHeight.get_data lib
              (VariableChannelHeight.heights.getD i 0)).p_coolant.getLastD 0
      ∧ (VariableChannelHeight.p_plot_y lib).getD i 0
          = (VariableChannelHeight.finalState lib).pressure_drop.getD i 0 / 100000 := by
  refine ⟨channel_pdrop_getD lib i hi, ?_⟩
  unfold VariableChannelHeight.p_plot_y
  exact getD_map_of_lt _ _ i (by rw [channel_pdrop_length]; exact hi)

/-- C6 witness: the statement evaluated at the constant library and sweep
index 0. -/
theorem C6_witness :
    0 < 20
      ∧ ((VariableChannelHeight.finalState constLib).pressure_drop.getD 0 0
            = (VariableChannelHeight.get_data constLib
                  (VariableChannelHeight.heights.getD 0 0)).p_coolant.headD 0
              - (VariableChannelHeight.get_data constLib
                  (VariableChannelHeight.heights.getD 0 0)).p_coolant.getLastD 0
          ∧ (VariableChannelHeight.p_plot_y constLib).getD 0 0
              = (VariableChannelHeight.finalState constLib).pressure_drop.getD 0 0
                / 100000) :=
  ⟨by decide, C6_thm constLib 0 (by decide)⟩

/-- C7: the plotted temperature value for sweep point `i` is the maximum of
the inner-wall temperature profile minus 273.15; the channel-height script
plots it against `heights/1e-3` (mm) with `pressure_drop/1e5` (bar) on the
twin axis, and the water script plots it against the water mass fraction
itself with the `isps` array (s) on the twin axis. -/
theorem C7_thm (lib : ExtLib) (i : ℕ) (hi : i < 20) :
    VariableChannelHeight.T_plot_x.getD i 0
        = VariableChannelHeight.heights.getD i 0 / (1 / 1000)
      ∧ (VariableChannelHeight.T_plot_y lib).getD i 0
          = amax (VariableChannelHeight.get_data lib
              (VariableChannelHeight.heights.getD i 0)).T_wall_inner - 27315 / 100
      ∧ (VariableChannelHeight.p_plot_y lib).getD i 0
          = ((VariableChannelHeight.get_data lib
                  (VariableChannelHeight.heights.getD i 0)).p_coolant.headD 0
              - (VariableChannelHeight.get_data lib
                  (VariableChannelHeight.heights.getD i 0)).p_coolant.getLastD 0)
            / 100000
      ∧ VariableWater.T_plot_x = VariableWater.water_mass_fractions
      ∧ (VariableWater.T_plot_y lib).getD i 0
          = amax (VariableWater.white_dwarf_cooling_data lib
              (VariableWater.water_mass_fractions.getD i 0)).1.T_wall_inner - 27315 / 100
      ∧ VariableWater.isp_plot_y lib = (VariableWater.finalState lib).isps
      ∧ (VariableWater.isp_plot_y lib).getD i 0
          = (VariableWater.white_dwarf_cooling_data lib
              (VariableWater.water_mass_fractions.getD i 0)).2 := by
  refine ⟨?_, ?_, ?_, rfl, ?_, rfl, water_isps_getD lib i hi⟩
  · unfold VariableChannelHeight.T_plot_x
    exact getD_map_of_lt _ _ i (by rw [channel_heights_length]; exact hi)
  · unfold VariableChannelHeight.T_plot_y
    rw [getD_map_of_lt _ _ i (by rw [channel_maxTs_length]; exact hi),
      channel_maxTs_getD lib i hi]
  · unfold VariableChannelHeight.p_plot_y
    rw [getD_map_of_lt _ _ i (by rw [channel_pdrop_length]; exact hi),
      channel_pdrop_getD lib i hi]
  · unfold VariableWater.T_plot_y
    rw [getD_map_of_lt _ _ i (by rw [water_maxTs_length]; exact hi),
      water_maxTs_getD lib i hi]

/-- C7 witness: the statement evaluated at the constant library and sweep
index 1. -/
theorem C7_witness :
    1 < 20
      ∧ (VariableChannelHeight.T_plot_x.getD 1 0
            = VariableChannelHeight.heights.getD 1 0 / (1 / 1000)
          ∧ (VariableChannelHeight.T_plot_y constLib).getD 1 0
              = amax (VariableChannelHeight.get_data constLib
                  (VariableChannelHeight.heights.getD 1 0)).T_wall_inner - 27315 / 100
          ∧ (VariableChannelHeight.p_plot_y constLib).getD 1 0
              = ((VariableChannelHeight.get_data constLib
                      (VariableChannelHeight.heights.getD 1 0)).p_coolant.headD 0
                  - (VariableChannelHeight.get_data constLib
                      (VariableChannelHeight.heights.getD 1 0)).p_coolant.getLastD 0)
                / 100000
          ∧ VariableWater.T_plot_x = VariableWater.water_mass_fractions
          ∧ (VariableWater.T_plot_y constLib).getD 1 0
              = amax (VariableWater.white_dwarf_cooling_data constLib
                  (VariableWater.water_mass_fractions.getD 1 0)).1.T_wall_inner
                - 27315 / 100
          ∧ VariableWater.isp_plot_y constLib = (VariableWater.finalState constLib).isps
          ∧ (VariableWater.isp_plot_y constLib).getD 1 0
              = (VariableWater.white_dwarf_cooling_data constLib
                  (VariableWater.water_mass_fractions.getD 1 0)).2) :=
  ⟨by decide, C7_thm constLib 1 (by decide)⟩

/-- C8: in both scripts `chamber_length = L_star * At / Ac`, so the chamber
volume `Ac * chamber_length` divided by the throat area `At` equals
`L_star = 1.5` whenever `At > 0`. -/
theorem C8_thm (lib : ExtLib) (w : ℚ) (hc : 0 < (VariableChannelHeight.nozzle lib).At)
    (hw : 0 < (VariableWater.nozzle lib w).At) :
    VariableChannelHeight.chamber_length lib
        = VariableChannelHeight.L_star * (VariableChannelHeight.nozzle lib).At
          / VariableChannelHeight.Ac
      ∧ VariableChannelHeight.Ac * VariableChannelHeight.chamber_length lib
          / (VariableChannelHeight.nozzle lib).At = VariableChannelHeight.L_star
      ∧ VariableChannelHeight.L_star = 3 / 2
      ∧ VariableWater.chamber_length lib w
          = VariableWater.L_star * (VariableWater.nozzle lib w).At / VariableWater.Ac
      ∧ VariableWater.Ac * VariableWater.chamber_length lib w
          / (VariableWater.nozzle lib w).At = VariableWater.L_star
      ∧ VariableWater.L_star = 3 / 2 := by
  have hAc : VariableChannelHeight.Ac ≠ 0 := by
    norm_num [VariableChannelHeight.Ac, np_pi]
  have hAcW : VariableWater.Ac ≠ 0 := by
    norm_num [VariableWater.Ac, np_pi]
  have hAt : (VariableChannelHeight.nozzle lib).At ≠ 0 := ne_of_gt hc
  have hAtW : (VariableWater.nozzle lib w).At ≠ 0 := ne_of_gt hw
  refine ⟨rfl, ?_, rfl, rfl, ?_, rfl⟩
  · unfold VariableChannelHeight.chamber_length
    field_simp
  · unfold VariableWater.chamber_length
    field_simp

/-- C8 witness: the statement evaluated at the constant library (whose nozzle
has throat area `1/100`) and `w = 1/10`. -/
theorem C8_witness :
    0 < (VariableChannelHeight.nozzle constLib).At
      ∧ 0 < (VariableWater.nozzle constLib (1 / 10)).At
      ∧ (VariableChannelHeight.chamber_length constLib
            = VariableChannelHeight.L_star * (VariableChannelHeight.nozzle constLib).At
              / VariableChannelHeight.Ac
          ∧ VariableChannelHeight.Ac * VariableChannelHeight.chamber_length constLib
              / (VariableChannelHeight.nozzle constLib).At = VariableChannelHeight.L_star
          ∧ VariableChannelHeight.L_star = 3 / 2
          ∧ VariableWater.chamber_length constLib (1 / 10)
              = VariableWater.L_star * (VariableWater.nozzle constLib (1 / 10)).At
                / VariableWater.Ac
          ∧ VariableWater.Ac * VariableWater.chamber_length constLib (1 / 10)
              / (VariableWater.nozzle constLib (1 / 10)).At = VariableWater.L_star
          ∧ VariableWater.L_star = 3 / 2) := by
  have h1 : (VariableChannelHeight.nozzle constLib).At = 1 / 100 := rfl
  have h2 : (VariableWater.nozzle constLib (1 / 10)).At = 1 / 100 := rfl
  have hc : 0 < (VariableChannelHeight.nozzle constLib).At := by rw [h1]; norm_num
  have hw : 0 < (VariableWater.nozzle constLib (1 / 10)).At := by rw [h2]; norm_num
  exact ⟨hc, hw, C8_thm constLib (1 / 10) hc hw⟩

/-- C9: in the water script the coolant mass flow rate handed to
`add_cooling_jacket` is the same constant `mdot/(OF_ratio+1) = 5.4489/4.5`
for every swept water mass fraction, even though the coolant mixture handed
to the transport-property model varies with the swept value. -/
theorem C9_thm (lib : ExtLib) (w : ℚ) :
    (VariableWater.white_dwarf lib w).cooling_jacket
        = some ⟨VariableWater.wall_material, VariableWater.inlet_T, VariableWater.p_tank,
            VariableWater.coolant_transport w, VariableWater.mdot_coolant, "vertical",
            1 / 1000⟩
      ∧ VariableWater.mdot_coolant = VariableWater.mdot / (VariableWater.OF_rat + 1)
      ∧ VariableWater.mdot_coolant = 54489 / 10000 / (9 / 2)
      ∧ VariableWater.mdot_coolant = 54489 / 45000
      ∧ VariableWater.coolant_transport w
          = ⟨"thermo", ⟨["isopropanol", "water"], FracSpec.ws [1 - w, w]⟩, "l"⟩ := by
  refine ⟨rfl, rfl, ?_, ?_, rfl⟩
  · norm_num [VariableWater.mdot_coolant, VariableWater.mdot, VariableWater.OF_rat]
  · norm_num [VariableWater.mdot_coolant, VariableWater.mdot, VariableWater.OF_rat]

/-- C10: `white_dwarf_cooling_data` is deterministic in its single argument
(equal swept values give equal results, the external libraries being modelled
as pure functions), and the sweep entry at index `i` is the value of
`white_dwarf_cooling_data` at sweep value `i` alone — independent of the
results of earlier iterations and of the initial contents of the arrays. -/
theorem C10_thm (lib : ExtLib) (w1 w2 : ℚ) (st : VariableWater.SweepState) (i : ℕ)
    (hw : w1 = w2) (hi : i < 20) (hl1 : st.isps.length = 20)
    (hl2 : st.max_inner_wall_Ts.length = 20) :
    VariableWater.white_dwarf_cooling_data lib w1
        = VariableWater.white_dwarf_cooling_data lib w2
      ∧ ((List.range 20).foldl (VariableWater.loopBody lib) st).isps.getD i 0
          = (VariableWater.white_dwarf_cooling_data lib
              (VariableWater.water_mass_fractions.getD i 0)).2
      ∧ ((List.range 20).foldl (VariableWater.loopBody lib) st).max_inner_wall_Ts.getD i 0
          = amax (VariableWater.white_dwarf_cooling_data lib
              (VariableWater.water_mass_fractions.getD i 0)).1.T_wall_inner
      ∧ (VariableWater.finalState lib).isps.getD i 0
          = (VariableWater.white_dwarf_cooling_data lib
              (VariableWater.water_mass_fractions.getD i 0)).2
      ∧ (VariableWater.finalState lib).max_inner_wall_Ts.getD i 0
          = amax (VariableWater.white_dwarf_cooling_data lib
              (VariableWater.water_mass_fractions.getD i 0)).1.T_wall_inner := by
  refine ⟨by rw [hw], ?_, ?_, water_isps_getD lib i hi, water_maxTs_getD lib i hi⟩
  · rw [water_foldl_isps]
    exact foldl_range_set_getD _ 20 _ (by omega) i hi
  · rw [water_foldl_maxTs]
    exact foldl_range_set_getD _ 20 _ (by omega) i hi

/-- C10 witness: the statement evaluated at the constant library, equal swept
values `1/4`, the initial zero arrays, and index 7. -/
theorem C10_witness :
    (1 / 4 : ℚ) = 1 / 4
      ∧ 7 < 20
      ∧ VariableWater.initState.isps.length = 20
      ∧ VariableWater.initState.max_inner_wall_Ts.length = 20
      ∧ (VariableWater.white_dwarf_cooling_data constLib (1 / 4)
            = VariableWater.white_dwarf_cooling_data constLib (1 / 4)
          ∧ ((List.range 20).foldl (VariableWater.loopBody constLib)
                VariableWater.initState).isps.getD 7 0
              = (VariableWater.white_dwarf_cooling_data constLib
                  (VariableWater.water_mass_fractions.getD 7 0)).2
          ∧ ((List.range 20).foldl (VariableWater.loopBody constLib)
                VariableWater.initState).max_inner_wall_Ts.getD 7 0
              = amax (VariableWater.white_dwarf_cooling_data constLib
                  (VariableWater.water_mass_fractions.getD 7 0)).1.T_wall_inner
          ∧ (VariableWater.finalState constLib).isps.getD 7 0
              = (VariableWater.white_dwarf_cooling_data constLib
                  (VariableWater.water_mass_fractions.getD 7 0)).2
          ∧ (VariableWater.finalState constLib).max_inner_wall_Ts.getD 7 0
              = amax (VariableWater.white_dwarf_cooling_data constLib
                  (VariableWater.water_mass_fractions.getD 7 0)).1.T_wall_inner) :=
  ⟨rfl, by decide, by decide, by decide,
    C10_thm constLib (1 / 4) (1 / 4) VariableWater.initState 7 rfl (by decide)
      (by decide) (by decide)⟩

end BambooInvestigations
